import Mathlib

/-!
Shallow embedding of `src/echo_server/echo_server.cc` (a libuv-based TCP echo
server exposed as a Node.js addon) and of the `plus_one` demo in
`src/native_wrap/`.

Each libuv callback is embedded as a pure Lean function from its inputs —
together with the status codes the libuv API calls return, which are inputs
chosen by the environment — to the list of observable events the handler
performs, in source order: memory allocations and frees, writes issued,
sockets closed, diagnostics logged.  Bytes are modelled as `Nat`, libuv
status codes as `Int`, and a `char *` that may be `NULL` as
`Option (List Nat)`.
-/

namespace EchoServer

/-- The libuv end-of-stream status code `UV_EOF`. -/
def UV_EOF : Int := -4095

/-- Observable actions taken by the handlers of `echo_server.cc`, in the
order the source performs them. -/
inductive Event where
  /-- Models `::malloc(sizeof(write_data))` in `read_cb`. -/
  | mallocWd : Event
  /-- Models a successful `uv_write(&wd->req, stream, &wd->buf, 1, write_cb)`: a
  write of exactly `payload` was issued on `stream`. -/
  | writeIssued (stream : Nat) (payload : List Nat) : Event
  /-- Models `::free` of the read buffer (`in_buf->base`), either directly at the
  end of `read_cb` or via `free_write_data`'s `::free(wd->buf.base)`. -/
  | freedReadBuffer : Event
  /-- Models `::free(wd)` inside `free_write_data`. -/
  | freedWd : Event
  /-- Models `::malloc(sizeof(uv_tcp_t))` in `connection_cb`. -/
  | mallocClient (id : Nat) : Event
  /-- Models `uv_tcp_init(loop_, client)` in `connection_cb`. -/
  | tcpInitClient (id : Nat) : Event
  /-- Models `::free(client)` in `connection_cb`, or the `::free` in
  `close_and_free`. -/
  | freedClient (id : Nat) : Event
  /-- Models `uv_close` on the stream with the given id (the listening socket is
  id 0 in `start`). -/
  | closedStream (id : Nat) : Event
  /-- Models a successful `uv_read_start`: reads are pending on the client. -/
  | readStarted (id : Nat) : Event
  /-- Models `error(ctx, status)`: `fprintf(stderr, "%s: %s.\n", ctx, uv_strerror(status))`. -/
  | logged (ctx : String) (status : Int) : Event
  deriving DecidableEq, Repr

/-- Embeds `free_write_data` (echo_server.cc:50): frees `wd->buf.base` (the read
buffer — a no-op when it is `NULL`) and then `wd` itself.  `basePresent`
records whether `wd->buf.base` is non-`NULL`. -/
def free_write_data (basePresent : Bool) : List Event :=
  (if basePresent then [Event.freedReadBuffer] else []) ++ [Event.freedWd]

/-- Embeds `write_cb` (echo_server.cc:57): on write completion, free the
`write_data` (and with it the payload buffer), and log iff `status ≠ 0`. -/
def write_cb (basePresent : Bool) (status : Int) : List Event :=
  free_write_data basePresent ++
    (if status ≠ 0 then [Event.logged "Error on writing client stream" status] else [])

/-- Embeds `close_and_free` (echo_server.cc:68): `uv_close` the stream, then
`::free` it. -/
def close_and_free (id : Nat) : List Event :=
  [Event.closedStream id, Event.freedClient id]

/-- Embeds `read_cb` (echo_server.cc:75).  `wr` is the status `uv_write` returns
when it is reached, `stream` identifies the connection, `nread` is the byte
count (negative on error / end of stream), and `base` is `in_buf->base`:
`some bytes` for an allocated buffer whose contents are `bytes` (length =
allocated capacity), `none` for `NULL`.

Control flow of the source: when `nread > 0` a `write_data` is allocated,
its buffer is set to the first `nread` bytes of `in_buf->base`, the local
`in_data` is nulled out, and `uv_write` is attempted — on non-zero return
the `write_data` is freed and the error logged.  When `nread < 0` the error
is logged unless it is `UV_EOF`, and the stream is closed and freed.
Finally `in_data` is freed iff still non-`NULL`. -/
def read_cb (wr : Int) (stream : Nat) (nread : Int) (base : Option (List Nat)) :
    List Event :=
  if nread > 0 then
    Event.mallocWd ::
      (if wr = 0 then
        [Event.writeIssued stream ((base.getD []).take nread.toNat)]
      else
        free_write_data base.isSome ++
          [Event.logged "Error on writing client stream" wr])
  else if nread < 0 then
    (if nread ≠ UV_EOF then [Event.logged "Error on reading client stream" nread]
     else []) ++
      close_and_free stream ++
      (if base.isSome then [Event.freedReadBuffer] else [])
  else
    if base.isSome then [Event.freedReadBuffer] else []

/-- Embeds `connection_cb` (echo_server.cc:132).  `status` is the event's status,
`accept_r` and `read_start_r` are the statuses `uv_accept` and
`uv_read_start` return when reached, and `clientId` identifies the freshly
`malloc`ed client handle. -/
def connection_cb (status accept_r read_start_r : Int) (clientId : Nat) :
    List Event :=
  if status < 0 then
    [Event.logged "Error on listening" status]
  else
    Event.mallocClient clientId :: Event.tcpInitClient clientId ::
      (if accept_r = 0 then
        if read_start_r = 0 then
          [Event.readStarted clientId]
        else
          close_and_free clientId ++
            [Event.logged "Error on reading client stream" read_start_r]
      else
        [Event.freedClient clientId,
         Event.logged "Error on accepting client connection" accept_r])

/-- The mutable state of the module: `started` models `loop_ != NULL`
(echo_server.cc:17), and `serverOpen` whether the listening socket is open —
per the source's own comment (echo_server.cc:202), the socket is regarded as
opened on a successful `uv_tcp_bind` and closed by `uv_close`. -/
structure ServerState where
  started : Bool
  serverOpen : Bool
  deriving DecidableEq, Repr

/-- The outcome of `start`, identified by the branch of the source that
produced it; the error branches are distinguished in the source by their
diagnostic messages, and every `r ≠ 0` branch additionally throws the
`"Failed to start"` exception. -/
inductive StartOutcome where
  | success : StartOutcome
  | wrongArgCount : StartOutcome
  | wrongArgType : StartOutcome
  | alreadyStarted : StartOutcome
  | addressParseError (r : Int) : StartOutcome
  | bindError (r : Int) : StartOutcome
  | listenError (r : Int) : StartOutcome
  deriving DecidableEq, Repr

/-- Embeds `start` (echo_server.cc:170).  `argc` and `numArg` model the argument
checks; `ip4_r`, `bind_r`, `listen_r` are the statuses `uv_ip4_addr`,
`uv_tcp_bind` and `uv_listen` return when reached.  Returns the outcome, the
new state and the trace of events.  The listening socket is stream id 0. -/
def start (st : ServerState) (argc : Nat) (numArg : Bool)
    (ip4_r bind_r listen_r : Int) : StartOutcome × ServerState × List Event :=
  if argc ≠ 1 then (StartOutcome.wrongArgCount, st, [])
  else if ¬ numArg then (StartOutcome.wrongArgType, st, [])
  else if st.started then (StartOutcome.alreadyStarted, st, [])
  else if ip4_r = 0 then
    if bind_r = 0 then
      if listen_r = 0 then
        (StartOutcome.success, { started := true, serverOpen := true }, [])
      else
        (StartOutcome.listenError listen_r,
         { started := false, serverOpen := false },
         [Event.closedStream 0, Event.logged "Error on listening" listen_r])
    else
      (StartOutcome.bindError bind_r, st,
       [Event.logged "Error on binding" bind_r])
  else
    (StartOutcome.addressParseError ip4_r, st,
     [Event.logged "Error on parsing address" ip4_r])

/-- The write payloads occurring in a trace, in order. -/
def payloadsOf : List Event → List (List Nat)
  | [] => []
  | Event.writeIssued _ p :: rest => p :: payloadsOf rest
  | _ :: rest => payloadsOf rest

/-- How many times a trace frees the read buffer. -/
def countBufFrees : List Event → Nat
  | [] => 0
  | Event.freedReadBuffer :: rest => countBufFrees rest + 1
  | _ :: rest => countBufFrees rest

/-- One connection's sequence of read completions, driven by the libuv
contract the source relies on (echo_server.cc:146: reads continue until
`uv_read_stop` or `uv_close`; :126: a negative `nread` makes `read_cb` close
the stream, after which no further callbacks fire for the connection). -/
def runReads (wr : Int) (stream : Nat) :
    List (Int × Option (List Nat)) → List Event
  | [] => []
  | (n, b) :: rest =>
    if n < 0 then read_cb wr stream n b
    else read_cb wr stream n b ++ runReads wr stream rest

lemma payloadsOf_append (a b : List Event) :
    payloadsOf (a ++ b) = payloadsOf a ++ payloadsOf b := by
  induction a with
  | nil => rfl
  | cons e rest ih => cases e <;> simp [payloadsOf, ih]

lemma countBufFrees_append (a b : List Event) :
    countBufFrees (a ++ b) = countBufFrees a + countBufFrees b := by
  induction a with
  | nil => simp [countBufFrees]
  | cons e rest ih => cases e <;> simp [countBufFrees, ih] <;> omega

/-- A read completion delivering the chunk `c` (with `pad` the unread tail of
the allocated capacity) whose `uv_write` succeeds allocates a `write_data`
and issues exactly one write, of exactly `c`. -/
lemma read_cb_chunk (s : Nat) (c pad : List Nat) (hc : c ≠ []) :
    read_cb 0 s (c.length : Int) (some (c ++ pad)) =
      [Event.mallocWd, Event.writeIssued s c] := by
  have hlen : 0 < c.length := List.length_pos.mpr hc
  have hpos : (0 : Int) < (c.length : Int) := by exact_mod_cast hlen
  simp [read_cb, hpos, List.take_left]

/-- C1.  Echo fidelity: every read completion delivering a nonempty chunk
`c` (the first `c.length` bytes of the allocated buffer, `pad` being the
unread remainder of its capacity) whose `uv_write` is accepted issues
exactly one write on the same stream whose payload is exactly `c` — not the
full allocated capacity — and over a whole connection the concatenation of
all echoed payloads equals the concatenation of all received chunks, in
order. -/
theorem echo_fidelity (s : Nat) (recvd : List (List Nat × List Nat))
    (h : ∀ p ∈ recvd, p.1 ≠ []) :
    (∀ c pad, (c, pad) ∈ recvd →
      read_cb 0 s (c.length : Int) (some (c ++ pad)) =
        [Event.mallocWd, Event.writeIssued s c]) ∧
    (payloadsOf (runReads 0 s
        (recvd.map fun p => ((p.1.length : Int), some (p.1 ++ p.2))))).flatten =
      (recvd.map Prod.fst).flatten := by
  constructor
  · intro c pad hm
    exact read_cb_chunk s c pad (h (c, pad) hm)
  · induction recvd with
    | nil => rfl
    | cons p rest ih =>
      have hp : p.1 ≠ [] := h p (List.mem_cons_self p rest)
      have hlen : 0 < p.1.length := List.length_pos.mpr hp
      have hneg : ¬ ((p.1.length : Int) < 0) := by
        simp
      simp only [List.map_cons, runReads, if_neg hneg, payloadsOf_append,
        List.flatten, List.map]
      rw [read_cb_chunk s p.1 p.2 hp]
      have ih2 := ih (fun q hq => h q (List.mem_cons_of_mem p hq))
      simp [payloadsOf, ih2]

/-- Witness for `echo_fidelity` at a concrete two-chunk exchange. -/
theorem echo_fidelity_witness :
    (∀ c pad, (c, pad) ∈ [([1, 2], [9]), ([3, 4, 5], [])] →
      read_cb 0 5 (c.length : Int) (some (c ++ pad)) =
        [Event.mallocWd, Event.writeIssued 5 c]) ∧
    (payloadsOf (runReads 0 5
        ([([1, 2], [9]), ([3, 4, 5], [])].map
          fun p => ((p.1.length : Int), some (p.1 ++ p.2))))).flatten =
      ([([1, 2], [9]), ([3, 4, 5], [])].map Prod.fst).flatten :=
  echo_fidelity 5 [([1, 2], [9]), ([3, 4, 5], [])] (by decide)

/-- C2.  Buffer-release invariant of `read_cb`: when a write is issued
(`nread > 0` and `uv_write` accepts), the reader frees the allocated buffer
zero times and the write path (`write_cb`, or `free_write_data` on issue
failure) frees it exactly once; on every other path the reader frees it
exactly once before returning — never zero times, never twice. -/
theorem buffer_release (wr : Int) (s : Nat) (n : Int) (b : List Nat)
    (status : Int) :
    (0 < n → wr = 0 →
      countBufFrees (read_cb wr s n (some b)) = 0 ∧
      countBufFrees (write_cb true status) = 1) ∧
    (0 < n → wr ≠ 0 →
      countBufFrees (read_cb wr s n (some b)) = 1 ∧
      payloadsOf (read_cb wr s n (some b)) = []) ∧
    (n ≤ 0 →
      countBufFrees (read_cb wr s n (some b)) = 1 ∧
      payloadsOf (read_cb wr s n (some b)) = []) := by
  refine ⟨fun h1 h2 => ?_, fun h1 h2 => ?_, fun h1 => ?_⟩
  · simp [read_cb, write_cb, free_write_data, h1, h2, countBufFrees,
      countBufFrees_append]
    split <;> simp [countBufFrees]
  · simp [read_cb, free_write_data, h1, h2, countBufFrees, payloadsOf,
      countBufFrees_append, payloadsOf_append]
  · have hn : ¬ (0 < n) := by omega
    rcases lt_or_eq_of_le h1 with hlt | heq
    · simp [read_cb, hn, hlt, close_and_free, countBufFrees_append,
        payloadsOf_append, countBufFrees, payloadsOf]
      split <;> simp [countBufFrees, payloadsOf]
    · simp [read_cb, ← heq, countBufFrees, payloadsOf]

/-- Witness for `buffer_release`: the write-issued, issue-failed and
negative-count cases at concrete inputs. -/
theorem buffer_release_witness :
    (countBufFrees (read_cb 0 5 2 (some [1, 2, 9])) = 0 ∧
      countBufFrees (write_cb true (-32)) = 1) ∧
    (countBufFrees (read_cb (-7) 5 2 (some [1, 2, 9])) = 1 ∧
      payloadsOf (read_cb (-7) 5 2 (some [1, 2, 9])) = []) ∧
    (countBufFrees (read_cb 0 5 (-104) (some [1, 2, 9])) = 1 ∧
      payloadsOf (read_cb 0 5 (-104) (some [1, 2, 9])) = []) :=
  ⟨(buffer_release 0 5 2 [1, 2, 9] (-32)).1 (by decide) rfl,
   (buffer_release (-7) 5 2 [1, 2, 9] 0).2.1 (by decide) (by decide),
   (buffer_release 0 5 (-104) [1, 2, 9] 0).2.2 (by decide)⟩

/-- C5.  Negative read completion: for every read completion with a
negative byte count, the error is logged iff the status is not `UV_EOF`, in
both cases the connection's socket is closed and freed, no write is issued,
and the transition is terminal — a run of the connection delivers no
further callbacks after it. -/
theorem negative_read_terminal (wr : Int) (s : Nat) (n : Int)
    (b : Option (List Nat)) (rest : List (Int × Option (List Nat)))
    (h : n < 0) :
    (Event.logged "Error on reading client stream" n ∈ read_cb wr s n b ↔
      n ≠ UV_EOF) ∧
    Event.closedStream s ∈ read_cb wr s n b ∧
    Event.freedClient s ∈ read_cb wr s n b ∧
    payloadsOf (read_cb wr s n b) = [] ∧
    runReads wr s ((n, b) :: rest) = read_cb wr s n b := by
  have hn : ¬ (0 < n) := by omega
  have hrw : read_cb wr s n b =
      (if n ≠ UV_EOF then [Event.logged "Error on reading client stream" n]
       else []) ++
        ([Event.closedStream s, Event.freedClient s] ++
          (if b.isSome then [Event.freedReadBuffer] else [])) := by
    simp [read_cb, hn, h, close_and_free]
  refine ⟨?_, ?_, ?_, ?_, by simp [runReads, h]⟩ <;> rw [hrw] <;>
    by_cases he : n = UV_EOF <;> cases b <;>
    simp [he, payloadsOf, payloadsOf_append]

/-- Witness for `negative_read_terminal` at a concrete read error, with a
further read queued behind it that is never delivered. -/
theorem negative_read_terminal_witness :
    ((Event.logged "Error on reading client stream" (-104) ∈
        read_cb 0 5 (-104) (some [1, 2]) ↔ (-104 : Int) ≠ UV_EOF) ∧
      Event.closedStream 5 ∈ read_cb 0 5 (-104) (some [1, 2]) ∧
      Event.freedClient 5 ∈ read_cb 0 5 (-104) (some [1, 2]) ∧
      payloadsOf (read_cb 0 5 (-104) (some [1, 2])) = [] ∧
      runReads 0 5 [((-104 : Int), some [1, 2]), (1, some [3])] =
        read_cb 0 5 (-104) (some [1, 2])) :=
  negative_read_terminal 0 5 (-104) (some [1, 2]) [(1, some [3])] (by decide)

/-- C6.  Zero-length read no-op: a read completion reporting exactly zero
bytes only releases the read buffer (when one was allocated) — no write is
issued, nothing is closed, nothing else happens. -/
theorem zero_read_noop (wr : Int) (s : Nat) (b : List Nat) :
    read_cb wr s 0 (some b) = [Event.freedReadBuffer] ∧
    read_cb wr s 0 none = [] := by
  constructor <;> simp [read_cb]

/-- C9.  Write failure is log-only: a write completion with non-zero status
frees the payload buffer and logs without closing anything, and a rejected
`uv_write` call makes `read_cb` free the payload buffer immediately and log,
also without closing — neither trace contains a close. -/
theorem write_failure_log_only (status wr : Int) (s : Nat) (n : Int)
    (b : List Nat) :
    (status ≠ 0 → write_cb true status =
      [Event.freedReadBuffer, Event.freedWd,
       Event.logged "Error on writing client stream" status]) ∧
    (0 < n → wr ≠ 0 → read_cb wr s n (some b) =
      [Event.mallocWd, Event.freedReadBuffer, Event.freedWd,
       Event.logged "Error on writing client stream" wr]) ∧
    (∀ id, Event.closedStream id ∉ write_cb true status) ∧
    (0 < n → wr ≠ 0 → ∀ id, Event.closedStream id ∉ read_cb wr s n (some b)) := by
  refine ⟨fun h => ?_, fun h1 h2 => ?_, fun id => ?_, fun h1 h2 id => ?_⟩
  · simp [write_cb, free_write_data, h]
  · simp [read_cb, free_write_data, h1, h2]
  · simp [write_cb, free_write_data]
  · simp [read_cb, free_write_data, h1, h2]

/-- Witness for `write_failure_log_only` at a concrete failed completion
status and a concrete rejected `uv_write`. -/
theorem write_failure_log_only_witness :
    (write_cb true (-32) =
      [Event.freedReadBuffer, Event.freedWd,
       Event.logged "Error on writing client stream" (-32)]) ∧
    (read_cb (-7) 5 2 (some [1, 2, 9]) =
      [Event.mallocWd, Event.freedReadBuffer, Event.freedWd,
       Event.logged "Error on writing client stream" (-7)]) ∧
    (∀ id, Event.closedStream id ∉ write_cb true (-32)) ∧
    (∀ id, Event.closedStream id ∉ read_cb (-7) 5 2 (some [1, 2, 9])) :=
  ⟨(write_failure_log_only (-32) (-7) 5 2 [1, 2, 9]).1 (by decide),
   (write_failure_log_only (-32) (-7) 5 2 [1, 2, 9]).2.1 (by decide) (by decide),
   (write_failure_log_only (-32) (-7) 5 2 [1, 2, 9]).2.2.1,
   (write_failure_log_only (-32) (-7) 5 2 [1, 2, 9]).2.2.2 (by decide) (by decide)⟩

/-- C3.  Evaluation of `connection_cb` at an incoming-connection event with
status `0` where `uv_accept` returns `-24`: the source's accept-failure
branch (echo_server.cc:162) frees the freshly initialized client handle and
logs the error, but never closes it — the trace contains `freedClient` and
no `closedStream`, although the handle was registered with the loop by
`uv_tcp_init`. -/
theorem accept_failure_frees_without_close :
    connection_cb 0 (-24) 0 7 =
      [Event.mallocClient 7, Event.tcpInitClient 7, Event.freedClient 7,
       Event.logged "Error on accepting client connection" (-24)] ∧
    Event.closedStream 7 ∉ connection_cb 0 (-24) 0 7 ∧
    Event.freedClient 7 ∈ connection_cb 0 (-24) 0 7 := by
  refine ⟨by rfl, by decide, by decide⟩

/-- C4.  Bind failure atomicity: with valid arguments on a not-started
service, a failing bind yields the bind-error outcome, changes nothing in
the state (still not started, no socket open beyond what was open before),
emits only the diagnostic, and a subsequent `start` in the resulting state
succeeds when the environment cooperates. -/
theorem bind_failure_atomic (st : ServerState) (br : Int)
    (hs : st.started = false) (hb : br ≠ 0) :
    (start st 1 true 0 br 0).1 = StartOutcome.bindError br ∧
    (start st 1 true 0 br 0).2.1 = st ∧
    (start st 1 true 0 br 0).2.2 = [Event.logged "Error on binding" br] ∧
    (start ((start st 1 true 0 br 0).2.1) 1 true 0 0 0).1 =
      StartOutcome.success := by
  simp [start, hs, hb]

/-- Witness for `bind_failure_atomic` at the fresh state and a concrete
bind error. -/
theorem bind_failure_atomic_witness :
    (start ⟨false, false⟩ 1 true 0 (-98) 0).1 = StartOutcome.bindError (-98) ∧
    (start ⟨false, false⟩ 1 true 0 (-98) 0).2.1 = ⟨false, false⟩ ∧
    (start ⟨false, false⟩ 1 true 0 (-98) 0).2.2 =
      [Event.logged "Error on binding" (-98)] ∧
    (start ((start ⟨false, false⟩ 1 true 0 (-98) 0).2.1) 1 true 0 0 0).1 =
      StartOutcome.success :=
  bind_failure_atomic ⟨false, false⟩ (-98) rfl (by decide)

/-- C7.  No double-start: on a started service, `start` with valid
arguments yields the already-started outcome and leaves both the state and
the world untouched (empty trace), whatever the environment would have
answered. -/
theorem no_double_start (st : ServerState) (ip4 br lr : Int)
    (h : st.started = true) :
    (start st 1 true ip4 br lr).1 = StartOutcome.alreadyStarted ∧
    (start st 1 true ip4 br lr).2.1 = st ∧
    (start st 1 true ip4 br lr).2.2 = [] := by
  simp [start, h]

/-- Witness for `no_double_start` on the running state. -/
theorem no_double_start_witness :
    (start ⟨true, true⟩ 1 true 0 0 0).1 = StartOutcome.alreadyStarted ∧
    (start ⟨true, true⟩ 1 true 0 0 0).2.1 = (⟨true, true⟩ : ServerState) ∧
    (start ⟨true, true⟩ 1 true 0 0 0).2.2 = [] :=
  no_double_start ⟨true, true⟩ 0 0 0 rfl

/-- C8.  Listen failure cleanup: with valid arguments on a not-started
service, when bind succeeds and listen fails, `start` yields the
listen-error outcome, the socket opened by the bind is closed before the
error is returned (the close precedes the diagnostic in the trace), and the
resulting state is not started with no socket open. -/
theorem listen_failure_cleanup (st : ServerState) (lr : Int)
    (h1 : st.started = false) (h2 : lr ≠ 0) :
    (start st 1 true 0 0 lr).1 = StartOutcome.listenError lr ∧
    (start st 1 true 0 0 lr).2.2 =
      [Event.closedStream 0, Event.logged "Error on listening" lr] ∧
    (start st 1 true 0 0 lr).2.1.started = false ∧
    (start st 1 true 0 0 lr).2.1.serverOpen = false := by
  simp [start, h1, h2]

/-- Witness for `listen_failure_cleanup` at the fresh state and a concrete
listen error. -/
theorem listen_failure_cleanup_witness :
    (start ⟨false, false⟩ 1 true 0 0 (-13)).1 = StartOutcome.listenError (-13) ∧
    (start ⟨false, false⟩ 1 true 0 0 (-13)).2.2 =
      [Event.closedStream 0, Event.logged "Error on listening" (-13)] ∧
    (start ⟨false, false⟩ 1 true 0 0 (-13)).2.1.started = false ∧
    (start ⟨false, false⟩ 1 true 0 0 (-13)).2.1.serverOpen = false :=
  listen_failure_cleanup ⟨false, false⟩ (-13) rfl (by decide)

end EchoServer
